import Mathlib

/-!
The controller of `App.js`.

`App.js` is one React function component.  Its state is five `useState` cells
(`hasPermission`, `isTfReady`, `image`, `model`, `prediction`); its behaviour is
three start-up tasks fired by `useEffect`, three button handlers (`takePicture`,
`loadImageAndPredict`, `reset`) and two `disabled` expressions on the buttons.

The embedding below keeps that shape:

* the state bundle is the structure `State`, one field per `useState` cell;
* every handler is a function on `State`; an `async` handler returns
  `Except JSError State`, where `.error` is a rejected promise (an exception that
  left the handler) and `.ok` carries the state after every setter has run;
* every call that leaves the file (the file system, the picker, the classifier,
  the permission dialogs) is an argument of the handler: the value the call
  produced, or the exception it threw.
-/

namespace App

/-! ## Values -/

/-- An exception value: either the `TypeError` raised by a property access on
`null`, or whatever a library call threw or rejected with. -/
inductive JSError where
  | typeError (msg : String)
  | thrown (msg : String)
  deriving DecidableEq, Repr

/-- One entry of the array the classifier resolves with; the component reads
`a.className` and `a.probability` when it renders the list (lines 146-151) and
never computes with either. -/
structure Prediction where
  className : String
  probability : Rat
  deriving DecidableEq, Repr

/-- The response object the picker hands to the callback of `launchCamera`.
The component reads one property of it, `uri` (lines 92 and 137); `uri = none`
is a response object without that property (`image.uri` is `undefined`).  The
other properties are carried along unread. -/
structure PickerResponse where
  uri : Option String
  others : List (String × String)
  deriving DecidableEq, Repr

/-- The object `mobilenet.load()` resolves with. -/
structure MobileNet where
  id : Nat
  deriving DecidableEq, Repr

/-- The bytes of `new Uint8Array(imgBuffer)`. -/
abbrev Bytes := List Nat

/-- The tensor `decodeJpeg` returns. -/
structure Tensor3D where
  values : List Nat
  deriving DecidableEq, Repr

/-- The three strings of `PermissionsAndroid.RESULTS`. -/
inductive PermissionStatus where
  | GRANTED
  | DENIED
  | NEVER_ASK_AGAIN
  deriving DecidableEq, Repr

/-! ## State (lines 27-31) -/

/-- The five `useState` cells of `App`. `hasPermission` starts as `null`,
`image` and `model` start as `null`, `prediction` starts as `[]`. -/
structure State where
  hasPermission : Option Bool
  isTfReady : Bool
  image : Option PickerResponse
  model : Option MobileNet
  prediction : List Prediction
  deriving DecidableEq, Repr

/-- The state of the first render: the arguments of the five `useState` calls. -/
def initialState : State :=
  { hasPermission := none, isTfReady := false, image := none, model := none,
    prediction := [] }

/-- The state a handler leaves behind: the state it resolved with, or the state
it started from when the exception left it before any setter ran (in this file
no handler calls a setter before a point where it can throw). -/
def settle (s : State) (r : Except JSError State) : State :=
  match r with
  | .ok s' => s'
  | .error _ => s

/-! ## Start-up tasks (lines 33-67) -/

/-- Lines 51-61: `loadLocalModel` loads the bundled model, runs it on
`tf.ones([1, 8])` and logs `response[0]`.  `selfCheck` is what that sequence of
library calls produced.  The function calls no setter. -/
def loadLocalModel (selfCheck : Except JSError (List Rat)) (s : State) :
    Except JSError State := do
  let _response ← selfCheck
  pure s

/-- Lines 33-39: `await tf.ready()`, then `setIsTfReady(true)`, then
`loadLocalModel()` is started and not awaited, so its outcome does not reach
the promise of `activateTensorflow`. -/
def activateTensorflow (ready : Except JSError Unit)
    (selfCheck : Except JSError (List Rat)) (s : State) : Except JSError State := do
  ready
  let s1 := { s with isTfReady := true }
  pure (settle s1 (loadLocalModel selfCheck s1))

/-- Lines 41-44: `setHasPermission(status === "granted")` with the `status` of
the object `Camera.requestPermissionsAsync()` resolved with. -/
def requestPermissions (response : Except JSError String) (s : State) :
    Except JSError State := do
  let status ← response
  pure { s with hasPermission := some (status == "granted") }

/-- Lines 46-49: `setModel(await mobilenet.load())`. -/
def loadModel (loaded : Except JSError MobileNet) (s : State) :
    Except JSError State := do
  let model ← loaded
  pure { s with model := some model }

/-! ## Button handlers (lines 69-112) -/

/-- Lines 69-87.  `granted` is what `PermissionsAndroid.request` resolved with
(or rejected with); `response` is the argument the picker passed to the
callback, `none` when the picker never called it.  The callback is
`setImage(response)` and nothing else. -/
def takePicture (granted : Except JSError PermissionStatus)
    (response : Option PickerResponse) (s : State) : Except JSError State := do
  let granted ← granted
  if granted = PermissionStatus.GRANTED then
    match response with
    | some response => pure { s with image := some response }
    | none => pure s
  else
    pure s

/-- The four calls of lines 92-102 that leave the file, each with the value it
returns or the exception it throws.  `readAsStringAsync` receives `image.uri`,
which is `undefined` (here `none`) for a response object without `uri`. -/
structure PredictEnv where
  readAsStringAsync : Option String → Except JSError String
  encodeString : String → Except JSError Bytes
  decodeJpeg : Bytes → Except JSError Tensor3D
  classify : MobileNet → Tensor3D → Except JSError (List Prediction)

/-- The body of the `try` block, lines 91-102, up to the value bound to the
local `prediction`.  `image.uri` on `image = null` and `model.classify` on
`model = null` raise a `TypeError`, in the order the statements run. -/
def tryBlock (env : PredictEnv) (image : Option PickerResponse)
    (model : Option MobileNet) : Except JSError (List Prediction) := do
  let uri ← match image with
    | none => throw (JSError.typeError "null is not an object (evaluating image.uri)")
    | some image => pure image.uri
  let imgB64 ← env.readAsStringAsync uri
  let imgBuffer ← env.encodeString imgB64
  let raw := imgBuffer
  let imageTensor ← env.decodeJpeg raw
  let classifier ← match model with
    | none => throw (JSError.typeError "null is not an object (evaluating model.classify)")
    | some model => pure model
  env.classify classifier imageTensor

/-- Lines 89-107 with the two states of an `async` handler kept apart: `image`
and `model` are the constants of the render that created the handler
(`rendered`), and `setPrediction` acts on the state current when the awaited
calls have resolved (`current`).  The `catch` clause logs and returns. -/
def loadImageAndPredictFrom (env : PredictEnv) (rendered current : State) :
    Except JSError State :=
  tryCatch
    (do
      let prediction ← tryBlock env rendered.image rendered.model
      pure { current with prediction := prediction })
    (fun _err => pure current)

/-- Lines 89-107, run with nothing else happening between the press of the
button and the last setter. -/
def loadImageAndPredict (env : PredictEnv) (s : State) : Except JSError State :=
  loadImageAndPredictFrom env s s

/-- Lines 109-112. -/
def reset (s : State) : State :=
  { s with image := none, prediction := [] }

/-! ## The `disabled` expressions (lines 119-130) -/

/-- Truthiness of a cell that holds `null` or an object. -/
def truthy {α : Type} (v : Option α) : Bool :=
  v.isSome

/-- Truthiness of a cell that holds an array: an array is an object, and every
object is truthy, the empty array included. -/
def truthyArray {α : Type} (_v : List α) : Bool :=
  true

/-- Line 121: `disabled={!isTfReady || !model || !image}`. -/
def predictDisabled (s : State) : Bool :=
  !s.isTfReady || !truthy s.model || !truthy s.image

/-- Line 128: `disabled={!isTfReady || !model || !image || !prediction}`. -/
def resetDisabled (s : State) : Bool :=
  !s.isTfReady || !truthy s.model || !truthy s.image || !truthyArray s.prediction

/-- A press on a `Button` of React Native (lines 117-130): the component does
not call `onPress` while its `disabled` property is true. -/
def press (disabled : Bool) (onPress : State → State) (s : State) : State :=
  if disabled then s else onPress s

/-- Lines 119-123: a press on the Predict button. -/
def pressPredict (env : PredictEnv) (s : State) : State :=
  press (predictDisabled s) (fun s => settle s (loadImageAndPredict env s)) s

/-- Lines 126-130: a press on the Reset button. -/
def pressReset (s : State) : State :=
  press (resetDisabled s) reset s

/-! ## Runs -/

/-- One event of a run: a start-up task settling or a handler running, with
what the outside world answered. -/
inductive Action where
  | activateTensorflow (ready : Except JSError Unit) (selfCheck : Except JSError (List Rat))
  | requestPermissions (response : Except JSError String)
  | loadModel (loaded : Except JSError MobileNet)
  | takePicture (granted : Except JSError PermissionStatus) (response : Option PickerResponse)
  | loadImageAndPredict (env : PredictEnv)
  | reset

/-- The state after one event. -/
def step (s : State) : Action → State
  | .activateTensorflow ready selfCheck => settle s (activateTensorflow ready selfCheck s)
  | .requestPermissions response => settle s (requestPermissions response s)
  | .loadModel loaded => settle s (loadModel loaded s)
  | .takePicture granted response => settle s (takePicture granted response s)
  | .loadImageAndPredict env => settle s (loadImageAndPredict env s)
  | .reset => reset s

/-- The state after a list of events, oldest first. -/
def run (s : State) (events : List Action) : State :=
  events.foldl step s

/-- What the user interface lets happen in state `s`: a press of Predict or of
Reset needs the button not to be disabled; the start-up tasks and Take image
are never held back. -/
def allowed (s : State) : Action → Bool
  | .loadImageAndPredict _ => !predictDisabled s
  | .reset => !resetDisabled s
  | _ => true

/-- States the component can be in: the first render, and every state one
allowed event away from such a state. -/
inductive Reachable : State → Prop where
  | init : Reachable initialState
  | next (s : State) (a : Action) : Reachable s → allowed s a = true → Reachable (step s a)

/-! ## The words of the specification -/

/-- Ready: the numeric runtime has finished initialising and the generic
classifier is loaded. -/
def Ready (s : State) : Prop :=
  s.isTfReady = true ∧ s.model ≠ none

/-- ImageCaptured: the image cell is not `null`. -/
def ImageCaptured (s : State) : Prop :=
  s.image ≠ none

/-! ## Concrete data used by the scenarios -/

/-- The response of a capture that produced the picture `file:///tmp/a.jpg`. -/
def imageA : PickerResponse :=
  { uri := some "file:///tmp/a.jpg", others := [] }

/-- The response of a later capture, a different picture. -/
def imageB : PickerResponse :=
  { uri := some "file:///tmp/b.jpg", others := [] }

/-- The response the picker passes when the user backs out of the camera: an
object with `didCancel` and without `uri`. -/
def cancelled : PickerResponse :=
  { uri := none, others := [("didCancel", "true")] }

/-- The classifier handle of the scenarios. -/
def net : MobileNet :=
  { id := 0 }

/-- The list of Scenario C: cat 0.92, then dog 0.05. -/
def catDog : List Prediction :=
  [{ className := "cat", probability := 92 / 100 },
   { className := "dog", probability := 5 / 100 }]

/-- Collaborators that all succeed; the classifier answers `catDog`. -/
def envCatDog : PredictEnv :=
  { readAsStringAsync := fun _ => .ok "/9j/2Q=="
    encodeString := fun _ => .ok [255, 216, 255, 217]
    decodeJpeg := fun _ => .ok { values := [0, 0, 0] }
    classify := fun _ _ => .ok catDog }

/-- Collaborators of Scenario D: the read succeeds, `decodeJpeg` throws. -/
def envDecodeError : PredictEnv :=
  { readAsStringAsync := fun _ => .ok "AAAA"
    encodeString := fun _ => .ok [0, 0, 0]
    decodeJpeg := fun _ => .error (JSError.thrown "SOI not found")
    classify := fun _ _ => .ok catDog }

/-- Ready, picture `imageA` taken, nothing predicted yet. -/
def capturedState : State :=
  run initialState
    [Action.activateTensorflow (.ok ()) (.ok [1]),
     Action.requestPermissions (.ok "granted"),
     Action.loadModel (.ok net),
     Action.takePicture (.ok PermissionStatus.GRANTED) (some imageA)]

/-- The events of Scenario C: start-up, capture of `imageA`, a successful Predict. -/
def scenarioC : List Action :=
  [Action.activateTensorflow (.ok ()) (.ok [1]),
   Action.requestPermissions (.ok "granted"),
   Action.loadModel (.ok net),
   Action.takePicture (.ok PermissionStatus.GRANTED) (some imageA),
   Action.loadImageAndPredict envCatDog]

/-- Ready, picture `imageA` taken and classified as `catDog`. -/
def predictedState : State :=
  run initialState scenarioC

/-- Ready, no picture: start-up has finished and nothing else has happened. -/
def readyState : State :=
  run initialState
    [Action.activateTensorflow (.ok ()) (.ok [1]),
     Action.requestPermissions (.ok "granted"),
     Action.loadModel (.ok net)]

/-- The classifier has loaded and a picture was taken while `tf.ready()` is
still pending. -/
def runtimePendingState : State :=
  run initialState
    [Action.loadModel (.ok net),
     Action.takePicture (.ok PermissionStatus.GRANTED) (some imageA)]

/-- The camera permission was refused at start-up; no picture yet. -/
def cameraDeniedState : State :=
  run initialState
    [Action.activateTensorflow (.ok ()) (.ok [1]),
     Action.requestPermissions (.ok "denied"),
     Action.loadModel (.ok net)]

/-! ## Lemmas on the handlers -/

@[simp]
theorem settle_ok (s t : State) : settle s (.ok t) = t := rfl

@[simp]
theorem settle_error (s : State) (e : JSError) : settle s (.error e) = s := rfl

/-- With no picture the first statement of the `try` block throws. -/
theorem tryBlock_no_image (env : PredictEnv) (model : Option MobileNet) :
    tryBlock env none model =
      .error (JSError.typeError "null is not an object (evaluating image.uri)") := rfl

/-- A `try` block that ran to its end read a picture and called a classifier. -/
theorem tryBlock_ok_inv (env : PredictEnv) (image : Option PickerResponse)
    (model : Option MobileNet) (L : List Prediction)
    (h : tryBlock env image model = .ok L) :
    ∃ img m imgB64 raw t, image = some img ∧ model = some m ∧
      env.readAsStringAsync img.uri = .ok imgB64 ∧ env.encodeString imgB64 = .ok raw ∧
      env.decodeJpeg raw = .ok t ∧ env.classify m t = .ok L := by
  cases image with
  | none => simp [tryBlock_no_image] at h
  | some img =>
    cases h1 : env.readAsStringAsync img.uri with
    | error e => simp [tryBlock, h1, bind, Except.bind, pure, Except.pure] at h
    | ok imgB64 =>
      cases h2 : env.encodeString imgB64 with
      | error e => simp [tryBlock, h1, h2, bind, Except.bind, pure, Except.pure] at h
      | ok raw =>
        cases h3 : env.decodeJpeg raw with
        | error e => simp [tryBlock, h1, h2, h3, bind, Except.bind, pure, Except.pure] at h
        | ok t =>
          cases model with
          | none =>
            simp [tryBlock, h1, h2, h3, bind, Except.bind, pure, Except.pure, throw,
              throwThe, MonadExceptOf.throw] at h
          | some m =>
            refine ⟨img, m, imgB64, raw, t, rfl, rfl, h1, h2, h3, ?_⟩
            simpa [tryBlock, h1, h2, h3, bind, Except.bind, pure, Except.pure] using h

/-- The `try` block on a picture and a classifier, all four calls succeeding. -/
theorem tryBlock_ok (env : PredictEnv) (img : PickerResponse) (m : MobileNet)
    (imgB64 : String) (raw : Bytes) (t : Tensor3D) (L : List Prediction)
    (h1 : env.readAsStringAsync img.uri = .ok imgB64)
    (h2 : env.encodeString imgB64 = .ok raw)
    (h3 : env.decodeJpeg raw = .ok t)
    (h4 : env.classify m t = .ok L) :
    tryBlock env (some img) (some m) = .ok L := by
  simp [tryBlock, h1, h2, h3, h4, bind, Except.bind, pure, Except.pure]

/-- The handler after a `try` block that ran to its end. -/
theorem loadImageAndPredictFrom_of_ok (env : PredictEnv) (rendered current : State)
    (L : List Prediction) (h : tryBlock env rendered.image rendered.model = .ok L) :
    loadImageAndPredictFrom env rendered current = .ok { current with prediction := L } := by
  simp [loadImageAndPredictFrom, h, tryCatch, tryCatchThe, MonadExceptOf.tryCatch,
    Except.tryCatch, bind, Except.bind, pure, Except.pure]

/-- The handler after a `try` block that threw. -/
theorem loadImageAndPredictFrom_of_error (env : PredictEnv) (rendered current : State)
    (err : JSError) (h : tryBlock env rendered.image rendered.model = .error err) :
    loadImageAndPredictFrom env rendered current = .ok current := by
  simp [loadImageAndPredictFrom, h, tryCatch, tryCatchThe, MonadExceptOf.tryCatch,
    Except.tryCatch, bind, Except.bind, pure, Except.pure]

/-- The `try` block when the read of the file is rejected. -/
theorem tryBlock_read_error (env : PredictEnv) (img : PickerResponse)
    (model : Option MobileNet) (e : JSError)
    (h1 : env.readAsStringAsync img.uri = .error e) :
    tryBlock env (some img) model = .error e := by
  simp [tryBlock, h1, bind, Except.bind, pure, Except.pure]

/-- The `try` block when `decodeJpeg` throws. -/
theorem tryBlock_decode_error (env : PredictEnv) (img : PickerResponse)
    (model : Option MobileNet) (imgB64 : String) (raw : Bytes) (e : JSError)
    (h1 : env.readAsStringAsync img.uri = .ok imgB64)
    (h2 : env.encodeString imgB64 = .ok raw)
    (h3 : env.decodeJpeg raw = .error e) :
    tryBlock env (some img) model = .error e := by
  simp [tryBlock, h1, h2, h3, bind, Except.bind, pure, Except.pure]

/-- The `try` block when the classifier throws. -/
theorem tryBlock_classify_error (env : PredictEnv) (img : PickerResponse)
    (m : MobileNet) (imgB64 : String) (raw : Bytes) (t : Tensor3D) (e : JSError)
    (h1 : env.readAsStringAsync img.uri = .ok imgB64)
    (h2 : env.encodeString imgB64 = .ok raw)
    (h3 : env.decodeJpeg raw = .ok t)
    (h4 : env.classify m t = .error e) :
    tryBlock env (some img) (some m) = .error e := by
  simp [tryBlock, h1, h2, h3, h4, bind, Except.bind, pure, Except.pure]

/-- The `try` block with no classifier loaded never ends normally. -/
theorem tryBlock_no_model (env : PredictEnv) (image : Option PickerResponse) :
    ∃ e, tryBlock env image none = .error e := by
  cases h : tryBlock env image none with
  | error e => exact ⟨e, rfl⟩
  | ok L =>
    obtain ⟨_, _, _, _, _, _, hm, _⟩ := tryBlock_ok_inv env image none L h
    cases hm

/-- The handler always resolves: no exception leaves `loadImageAndPredict`. -/
theorem loadImageAndPredictFrom_resolves (env : PredictEnv) (rendered current : State) :
    ∃ s, loadImageAndPredictFrom env rendered current = .ok s := by
  cases h : tryBlock env rendered.image rendered.model with
  | error e => exact ⟨_, loadImageAndPredictFrom_of_error env rendered current e h⟩
  | ok L => exact ⟨_, loadImageAndPredictFrom_of_ok env rendered current L h⟩

/-- The state after `events` followed by one more event. -/
theorem run_append_one (s : State) (events : List Action) (a : Action) :
    run s (events ++ [a]) = step (run s events) a := by
  simp [run, List.foldl_append]

/-- One event either leaves the prediction cell alone, or empties it, or is a
Predict whose `try` block ran to its end and whose result is the new value. -/
theorem step_prediction (s : State) (a : Action) :
    (step s a).prediction = s.prediction ∨ (step s a).prediction = [] ∨
      ∃ env, a = Action.loadImageAndPredict env ∧
        tryBlock env s.image s.model = .ok (step s a).prediction := by
  cases a with
  | activateTensorflow ready selfCheck =>
    left
    cases ready <;> cases selfCheck <;> rfl
  | requestPermissions response => left; cases response <;> rfl
  | loadModel loaded => left; cases loaded <;> rfl
  | takePicture granted response =>
    left
    cases granted with
    | error e => rfl
    | ok g => cases g <;> cases response <;> rfl
  | loadImageAndPredict env =>
    cases h : tryBlock env s.image s.model with
    | error e =>
      left
      simp [step, loadImageAndPredict, loadImageAndPredictFrom_of_error env s s e h]
    | ok L =>
      right; right
      refine ⟨env, rfl, ?_⟩
      simpa [step, loadImageAndPredict, loadImageAndPredictFrom_of_ok env s s L h] using h
  | reset => right; left; rfl

/-- A non-empty prediction cell at the end of a run from the first render was
written by a Predict of that run whose `try` block ran to its end on the state
it was pressed in. -/
theorem run_prediction_origin (events : List Action)
    (hne : (run initialState events).prediction ≠ []) :
    ∃ before env after, events = before ++ Action.loadImageAndPredict env :: after ∧
      tryBlock env (run initialState before).image (run initialState before).model =
        .ok (run initialState events).prediction := by
  induction events using List.reverseRecOn with
  | nil => exact absurd rfl hne
  | append_singleton events a ih =>
    rw [run_append_one] at hne ⊢
    rcases step_prediction (run initialState events) a with h | h | ⟨env, ha, h⟩
    · rw [h] at hne ⊢
      obtain ⟨before, env, after, hev, hok⟩ := ih hne
      exact ⟨before, env, after ++ [a], by simp [hev], hok⟩
    · exact absurd h hne
    · exact ⟨events, env, [], by simp [ha], h⟩

/-! ## The claims -/

/-- C1: for every state, `reset` leaves `image = null` and `prediction = []`,
a second `reset` changes nothing more, and the permission flag, the readiness
flag and the classifier handle are the ones of the state it started from. -/
theorem reset_clears_and_is_idempotent (s : State) :
    (reset s).image = none ∧ (reset s).prediction = [] ∧ reset (reset s) = reset s ∧
      (reset s).hasPermission = s.hasPermission ∧ (reset s).isTfReady = s.isTfReady ∧
      (reset s).model = s.model :=
  ⟨rfl, rfl, rfl, rfl, rfl, rfl⟩

/-- C2: whenever the `try` block of `loadImageAndPredict` throws (the read
fails, the bytes cannot be decoded, the classifier throws, or a property of
`null` is accessed), the handler resolves, with the state it started from; and
the same holds when other events moved the state on while the calls were
pending: the state current at that time is what is left. -/
theorem loadImageAndPredict_failure_keeps_state (env : PredictEnv) (s : State)
    (err : JSError) (h : tryBlock env s.image s.model = .error err) :
    loadImageAndPredict env s = .ok s ∧
      ∀ current : State, loadImageAndPredictFrom env s current = .ok current :=
  ⟨loadImageAndPredictFrom_of_error env s s err h,
   fun current => loadImageAndPredictFrom_of_error env s current err h⟩

/-- C2 at Scenario D, second attempt: `catDog` is on screen, `decodeJpeg` throws
on the next Predict, and the state with `catDog` is what the handler leaves. -/
theorem loadImageAndPredict_failure_keeps_state_witness :
    predictedState.prediction = catDog ∧
      tryBlock envDecodeError predictedState.image predictedState.model =
        .error (JSError.thrown "SOI not found") ∧
      loadImageAndPredict envDecodeError predictedState = .ok predictedState :=
  ⟨rfl, rfl,
   (loadImageAndPredict_failure_keeps_state envDecodeError predictedState
      (JSError.thrown "SOI not found") rfl).1⟩

/-- C3: in a state with a picture and a loaded classifier, when the read, the
two decoding calls and the classifier succeed and the classifier resolves with
`L`, the handler resolves with the same state except that `prediction` is `L`
itself. -/
theorem loadImageAndPredict_success_sets_list (env : PredictEnv) (s : State)
    (img : PickerResponse) (m : MobileNet) (imgB64 : String) (raw : Bytes)
    (t : Tensor3D) (L : List Prediction)
    (hi : s.image = some img) (hm : s.model = some m)
    (h1 : env.readAsStringAsync img.uri = .ok imgB64)
    (h2 : env.encodeString imgB64 = .ok raw)
    (h3 : env.decodeJpeg raw = .ok t)
    (h4 : env.classify m t = .ok L) :
    loadImageAndPredict env s = .ok { s with prediction := L } := by
  apply loadImageAndPredictFrom_of_ok
  rw [hi, hm]
  exact tryBlock_ok env img m imgB64 raw t L h1 h2 h3 h4

/-- C3 at Scenario C: the picture is `file:///tmp/a.jpg`, the classifier answers
cat 0.92 then dog 0.05, and `prediction` is that list in that order. -/
theorem loadImageAndPredict_success_sets_list_witness :
    capturedState.image = some imageA ∧ imageA.uri = some "file:///tmp/a.jpg" ∧
      capturedState.model = some net ∧
      envCatDog.classify net { values := [0, 0, 0] } =
        .ok [{ className := "cat", probability := 92 / 100 },
             { className := "dog", probability := 5 / 100 }] ∧
      loadImageAndPredict envCatDog capturedState =
        .ok { capturedState with
              prediction := [{ className := "cat", probability := 92 / 100 },
                             { className := "dog", probability := 5 / 100 }] } :=
  ⟨rfl, rfl, rfl, rfl,
   loadImageAndPredict_success_sets_list envCatDog capturedState imageA net "/9j/2Q=="
     [255, 216, 255, 217] { values := [0, 0, 0] } catDog rfl rfl rfl rfl rfl rfl⟩

/-- C4: the Predict button is enabled exactly when `isTfReady` holds, `model`
is not `null` and `image` is not `null`; the camera permission flag and the
outcome of the custom-model self-check do not enter the expression. -/
theorem predict_enabled_iff_ready_and_image (s : State) :
    (predictDisabled s = false ↔ Ready s ∧ ImageCaptured s) ∧
      (∀ flag : Option Bool,
        predictDisabled { s with hasPermission := flag } = predictDisabled s) ∧
      (∀ selfCheck : Except JSError (List Rat),
        predictDisabled (settle s (loadLocalModel selfCheck s)) = predictDisabled s) := by
  refine ⟨?_, fun _ => rfl, ?_⟩
  · obtain ⟨hp, r, i, m, p⟩ := s
    cases r <;> cases i <;> cases m <;>
      simp [predictDisabled, truthy, Ready, ImageCaptured]
  · intro selfCheck
    cases selfCheck <;> rfl

/-- C5: the predict action is started by a press on the Predict button and by
nothing else; in every state that is not Ready with a picture (runtime not
initialised, classifier not loaded, or no picture) the button is disabled, the
handler is not called and the press leaves the state as it was, whatever the
read, the decoding and the classifier would do.  The handler itself, in a state
where the classifier is not loaded or there is no picture, resolves with the
state it started from. -/
theorem predict_rejected_when_not_ready (env : PredictEnv) (s : State)
    (h : ¬ (Ready s ∧ ImageCaptured s)) :
    pressPredict env s = s ∧
      (s.model = none ∨ s.image = none → loadImageAndPredict env s = .ok s) := by
  constructor
  · have hd : predictDisabled s = true := by
      obtain ⟨hp, r, i, m, p⟩ := s
      revert h
      cases r <;> cases i <;> cases m <;>
        simp [predictDisabled, truthy, Ready, ImageCaptured]
    simp [pressPredict, press, hd]
  · intro hn
    rcases hn with hn | hn
    · obtain ⟨e, he⟩ := tryBlock_no_model env s.image
      exact loadImageAndPredictFrom_of_error env s s e (by rw [hn]; exact he)
    · exact loadImageAndPredictFrom_of_error env s s _
        (by rw [hn]; exact tryBlock_no_image env s.model)

/-- C5 at two states with collaborators that would all succeed: the state with
the runtime still pending (the press does nothing) and the state Ready with no
picture (the press does nothing and the handler does nothing). -/
theorem predict_rejected_when_not_ready_witness :
    ¬ (Ready runtimePendingState ∧ ImageCaptured runtimePendingState) ∧
      pressPredict envCatDog runtimePendingState = runtimePendingState ∧
      ¬ (Ready readyState ∧ ImageCaptured readyState) ∧
      readyState.image = none ∧
      loadImageAndPredict envCatDog readyState = .ok readyState :=
  ⟨fun h => absurd h.1.1 (by decide),
   (predict_rejected_when_not_ready envCatDog runtimePendingState
      (fun h => absurd h.1.1 (by decide))).1,
   fun h => h.2 rfl,
   rfl,
   (predict_rejected_when_not_ready envCatDog readyState (fun h => h.2 rfl)).2 (Or.inr rfl)⟩

/-- C6 as stated fails: after capture, successful Predict and a second capture
that returns `imageB`, `image` is `imageB` and `prediction` is still `catDog`. -/
theorem takePicture_clears_prediction_counterexample :
    predictedState.prediction = catDog ∧
      takePicture (.ok PermissionStatus.GRANTED) (some imageB) predictedState =
        .ok { predictedState with image := some imageB } ∧
      (settle predictedState
        (takePicture (.ok PermissionStatus.GRANTED) (some imageB) predictedState)).prediction
        = catDog ∧
      (settle predictedState
        (takePicture (.ok PermissionStatus.GRANTED) (some imageB) predictedState)).prediction
        ≠ [] :=
  ⟨rfl, rfl, rfl, fun h => by cases h⟩

/-- C6, amended: in every state, a capture (storage request granted) whose
picker returns a response replaces `image` with that response and leaves every
other cell as it was; `prediction` after the capture is `prediction` before
it. -/
theorem takePicture_replaces_image_only (s : State) (response : PickerResponse) :
    takePicture (.ok PermissionStatus.GRANTED) (some response) s =
        .ok { s with image := some response } ∧
      (settle s (takePicture (.ok PermissionStatus.GRANTED) (some response) s)).prediction =
        s.prediction :=
  ⟨rfl, rfl⟩

/-- C7 on the code: in the state Ready with no picture, a capture the user
cancels (the picker passes a response without `uri`) stores that response in
`image`; `image` is no longer `null` and the Predict button, disabled before,
is enabled. -/
theorem takePicture_cancelled_sets_image :
    readyState.image = none ∧ predictDisabled readyState = true ∧ cancelled.uri = none ∧
      takePicture (.ok PermissionStatus.GRANTED) (some cancelled) readyState =
        .ok { readyState with image := some cancelled } ∧
      (settle readyState
        (takePicture (.ok PermissionStatus.GRANTED) (some cancelled) readyState)).image
        ≠ readyState.image ∧
      predictDisabled (settle readyState
        (takePicture (.ok PermissionStatus.GRANTED) (some cancelled) readyState)) = false :=
  ⟨rfl, rfl, rfl, rfl, by decide, rfl⟩

/-- C8: the Reset button is enabled exactly when `isTfReady` holds, `model` is
not `null` and `image` is not `null`; replacing the prediction list by any
other list does not change whether it is enabled. -/
theorem reset_enabled_iff_ready_and_image (s : State) :
    (resetDisabled s = false ↔ Ready s ∧ ImageCaptured s) ∧
      ∀ L : List Prediction, resetDisabled { s with prediction := L } = resetDisabled s := by
  refine ⟨?_, fun _ => rfl⟩
  obtain ⟨hp, r, i, m, p⟩ := s
  cases r <;> cases i <;> cases m <;>
    simp [resetDisabled, truthy, truthyArray, Ready, ImageCaptured]

/-- C9: with `image = null` the handler `loadImageAndPredict` resolves with the
state untouched whatever the collaborators do (also when other events ran
while it was pending); one event changes `prediction` to a non-empty list only
if it is a Predict pressed while `image` was not `null`; and a non-empty
`prediction` at the end of any run from the first render was written by a
Predict of that run pressed in a state with a picture. -/
theorem prediction_only_from_predict_with_image :
    (∀ (env : PredictEnv) (s current : State), s.image = none →
        loadImageAndPredict env s = .ok s ∧
        loadImageAndPredictFrom env s current = .ok current) ∧
    (∀ (s : State) (a : Action), (step s a).prediction ≠ [] →
        (step s a).prediction ≠ s.prediction →
        ImageCaptured s ∧ ∃ env, a = Action.loadImageAndPredict env) ∧
    (∀ events : List Action, (run initialState events).prediction ≠ [] →
        ∃ before env after,
          events = before ++ Action.loadImageAndPredict env :: after ∧
          ImageCaptured (run initialState before) ∧
          tryBlock env (run initialState before).image (run initialState before).model =
            .ok (run initialState events).prediction) := by
  refine ⟨?_, ?_, ?_⟩
  · intro env s current h
    have hb : tryBlock env s.image s.model =
        .error (JSError.typeError "null is not an object (evaluating image.uri)") := by
      rw [h]; exact tryBlock_no_image env s.model
    exact ⟨loadImageAndPredictFrom_of_error env s s _ hb,
      loadImageAndPredictFrom_of_error env s current _ hb⟩
  · intro s a hne hch
    rcases step_prediction s a with h | h | ⟨env, ha, h⟩
    · exact absurd h hch
    · exact absurd h hne
    · obtain ⟨img, _, _, _, _, hi, _⟩ := tryBlock_ok_inv env s.image s.model _ h
      exact ⟨by simp [ImageCaptured, hi], env, ha⟩
  · intro events hne
    obtain ⟨before, env, after, hev, hok⟩ := run_prediction_origin events hne
    obtain ⟨img, _, _, _, _, hi, _⟩ := tryBlock_ok_inv env _ _ _ hok
    exact ⟨before, env, after, hev, by simp [ImageCaptured, hi], hok⟩

/-- C9 at concrete inputs: the first render has no picture and a Predict there
changes nothing; the last event of Scenario C makes `prediction` non-empty and
is a Predict pressed with a picture; the run of Scenario C ends with a
non-empty `prediction`, written by a Predict pressed with a picture. -/
theorem prediction_only_from_predict_with_image_witness :
    (initialState.image = none ∧
      loadImageAndPredict envCatDog initialState = .ok initialState) ∧
    ((step capturedState (Action.loadImageAndPredict envCatDog)).prediction ≠ [] ∧
      (step capturedState (Action.loadImageAndPredict envCatDog)).prediction ≠
        capturedState.prediction ∧
      ImageCaptured capturedState) ∧
    ((run initialState scenarioC).prediction ≠ [] ∧
      ∃ before env after,
        scenarioC = before ++ Action.loadImageAndPredict env :: after ∧
        ImageCaptured (run initialState before) ∧
        tryBlock env (run initialState before).image (run initialState before).model =
          .ok (run initialState scenarioC).prediction) :=
  ⟨⟨rfl, (prediction_only_from_predict_with_image.1 envCatDog initialState initialState rfl).1⟩,
   ⟨(fun h => by cases h), (fun h => by cases h),
    (prediction_only_from_predict_with_image.2.1 capturedState
      (Action.loadImageAndPredict envCatDog) (fun h => by cases h) (fun h => by cases h)).1⟩,
   ⟨(fun h => by cases h),
    prediction_only_from_predict_with_image.2.2 scenarioC (fun h => by cases h)⟩⟩

/-- C10 as stated fails: with the camera permission refused and no picture, a
capture whose storage request is granted and whose picker returns `imageA`
stores `imageA` in `image`. -/
theorem takePicture_camera_denied_counterexample :
    cameraDeniedState.hasPermission = some false ∧ cameraDeniedState.image = none ∧
      takePicture (.ok PermissionStatus.GRANTED) (some imageA) cameraDeniedState =
        .ok { cameraDeniedState with image := some imageA } ∧
      (settle cameraDeniedState
        (takePicture (.ok PermissionStatus.GRANTED) (some imageA) cameraDeniedState)).image
        ≠ none :=
  ⟨rfl, rfl, rfl, by decide⟩

/-- C10, amended: in a state with no picture, a capture whose storage request
is answered with anything but `GRANTED` (or is rejected), or whose picker
passes no response, leaves the state as it was, so `image` stays `null`.  The
camera permission flag is not consulted by `takePicture`: for every state,
every storage answer and every picker response, the capture run with another
value of the flag leaves the same state, up to the flag itself. -/
theorem takePicture_refused_keeps_no_image (s : State)
    (granted : Except JSError PermissionStatus) (response : Option PickerResponse)
    (hi : s.image = none)
    (hg : granted ≠ .ok PermissionStatus.GRANTED ∨ response = none) :
    (settle s (takePicture granted response s)).image = none ∧
      settle s (takePicture granted response s) = s ∧
      ∀ (t : State) (answer : Except JSError PermissionStatus)
        (picked : Option PickerResponse) (flag : Option Bool),
        settle { t with hasPermission := flag }
            (takePicture answer picked { t with hasPermission := flag }) =
          { settle t (takePicture answer picked t) with hasPermission := flag } := by
  have key : settle s (takePicture granted response s) = s := by
    cases granted with
    | error e => rfl
    | ok g =>
      cases g with
      | GRANTED =>
        rcases hg with hg | hg
        · exact absurd rfl hg
        · subst hg; rfl
      | DENIED => rfl
      | NEVER_ASK_AGAIN => rfl
  refine ⟨by rw [key]; exact hi, key, ?_⟩
  intro t answer picked flag
  cases answer with
  | error e => rfl
  | ok g => cases g <;> cases picked <;> rfl

/-- C10, amended, at the state with the camera permission refused: the storage
request is answered `DENIED` and the picker would have returned `imageA`, and
no picture is stored; with the storage request granted the capture leaves the
same picture in that state as in the state with the flag set to granted. -/
theorem takePicture_refused_keeps_no_image_witness :
    cameraDeniedState.hasPermission = some false ∧ cameraDeniedState.image = none ∧
      (settle cameraDeniedState
        (takePicture (.ok PermissionStatus.DENIED) (some imageA) cameraDeniedState)).image
        = none ∧
      settle { cameraDeniedState with hasPermission := some true }
          (takePicture (.ok PermissionStatus.GRANTED) (some imageA)
            { cameraDeniedState with hasPermission := some true }) =
        { settle cameraDeniedState
            (takePicture (.ok PermissionStatus.GRANTED) (some imageA) cameraDeniedState)
          with hasPermission := some true } :=
  ⟨rfl, rfl,
   (takePicture_refused_keeps_no_image cameraDeniedState (.ok PermissionStatus.DENIED)
      (some imageA) rfl (Or.inl (fun h => by cases h))).1,
   (takePicture_refused_keeps_no_image cameraDeniedState (.ok PermissionStatus.DENIED)
      (some imageA) rfl (Or.inl (fun h => by cases h))).2.2 cameraDeniedState
      (.ok PermissionStatus.GRANTED) (some imageA) (some true)⟩

end App
